import Mathlib

/-!
Shallow embedding of the FetiiAI intent-routing layer, translated from
`src/gpt_router.py` and `src/function_registry.py`.

Modelling conventions:
- Python dicts that are used as ordered key/value tables (`FUNCTION_REGISTRY`,
  the route cache) become association lists; a fresh store shadows older
  entries by consing, and lookup takes the first match, matching dict
  read/write semantics.
- The external OpenAI client is an oracle `ChatRequest → Nat → Except String
  ModelMessage`: given the request built by the router and the (0-based)
  attempt index it either returns a model message or raises (`Except.error`
  carries the exception text).  `client = none` models a missing API key.
- `random.uniform(0, 0.2)` is an arbitrary jitter function `Nat → ℚ`
  (attempt index → sampled jitter); theorems that need the range constrain it
  by hypothesis.  Delays are rationals; `time.sleep` is modelled by recording
  the slept delay in a list.
- `json.loads` on the function-call arguments is modelled at the boundary:
  the payload carries `Option Params`, where `none` means the arguments were
  not parseable as JSON (the `except` branch of the source).
- `example_usage` / `example_queries` registry fields are prompt-steering
  strings never read by the router logic and are omitted from the embedding.
-/

/-- A JSON-ish parameter value appearing in a parsed argument mapping. -/
inductive PValue where
  | s (v : String)
  | i (v : Int)
  deriving DecidableEq

/-- A parsed argument mapping (the result of `json.loads` on the model's
argument payload). -/
abbrev Params := List (String × PValue)

/-- One entry of `FUNCTION_REGISTRY` (src/function_registry.py): name,
purpose, description and the ordered parameter signature
(parameter name ↦ descriptor string). -/
structure FunctionInfo where
  name : String
  purpose : String
  description : String
  signature : List (String × String)
  deriving DecidableEq

/-- `FUNCTION_REGISTRY` from src/function_registry.py lines 9-140, as an
ordered association list (Python dicts preserve insertion order). -/
def FUNCTION_REGISTRY : List (String × FunctionInfo) := [
  ("top_dropoffs_by_age_group_and_day",
   { name := "top_dropoffs_by_age_group_and_day",
     purpose := "Find the most popular dropoff locations for a specific age group on a specific day",
     description := "Analyzes where riders of a certain age group go most frequently on a given day. Useful for understanding demographic preferences and popular destinations.",
     signature := [
       ("age_group", "str (required) - Age group like '18–24', '25–34', '35–44', '45–54', '55+'"),
       ("day", "str (optional) - Day of week like 'Monday', 'Tuesday', 'Wednesday', 'Thursday', 'Friday', 'Saturday', 'Sunday'"),
       ("top_k", "int (optional, default=5) - Number of top locations to return")] }),
  ("peak_hours_for_large_groups",
   { name := "peak_hours_for_large_groups",
     purpose := "Analyze when large groups of riders are most active throughout the day",
     description := "Shows hourly patterns of when groups of a certain size or larger tend to ride. Useful for understanding group behavior patterns and peak demand times.",
     signature := [
       ("min_group_size", "int (required) - Minimum group size to analyze (e.g., 6 for groups of 6+ people)")] }),
  ("trips_to_specific_location",
   { name := "trips_to_specific_location",
     purpose := "Count and analyze trips to a specific location or venue",
     description := "Tracks how many trips were made to locations containing a specific name. Shows trends over time for popular venues.",
     signature := [
       ("location_name", "str (required) - Name or part of location name to search for (e.g., 'Moody', 'Domain', 'Rainey')")] }),
  ("age_distribution_at_location",
   { name := "age_distribution_at_location",
     purpose := "Show the age demographics of riders going to a specific location",
     description := "Analyzes what age groups visit a particular venue most frequently. Useful for understanding venue demographics and target audiences.",
     signature := [
       ("location_name", "str (required) - Name or part of location name to analyze")] }),
  ("group_size_by_day_of_week",
   { name := "group_size_by_day_of_week",
     purpose := "Analyze average group sizes by day of the week",
     description := "Shows how group sizes vary throughout the week. Useful for understanding when people travel in larger vs smaller groups.",
     signature := [] }),
  ("least_busy_locations_by_day",
   { name := "least_busy_locations_by_day",
     purpose := "Find locations with the fewest trips on a specific day (for crowd avoidance)",
     description := "Identifies locations that receive fewer trips on a given day, useful for finding quieter spots or avoiding crowds.",
     signature := [
       ("day", "str (required) - Day of week to analyze"),
       ("min_trips", "int (optional, default=5) - Minimum number of trips to consider a location")] }),
  ("busiest_hours_by_location",
   { name := "busiest_hours_by_location",
     purpose := "Find the busiest hours for a specific location",
     description := "Shows when a particular venue is most crowded throughout the day. Useful for timing visits to avoid or find peak times.",
     signature := [
       ("location_name", "str (required) - Name or part of location name to analyze")] }),
  ("weekend_vs_weekday_patterns",
   { name := "weekend_vs_weekday_patterns",
     purpose := "Compare riding patterns between weekends and weekdays",
     description := "Analyzes differences in trip patterns, popular destinations, and group sizes between weekend and weekday usage.",
     signature := [] }),
  ("quietest_day_overall",
   { name := "quietest_day_overall",
     purpose := "Find the quietest day by total rides across the dataset",
     description := "Aggregates trips by day of week and surfaces the day with the fewest rides, along with a ranked list.",
     signature := [] })]

/-- Python's `name in FUNCTION_REGISTRY` membership test on the dict keys. -/
def registryHas (n : String) : Bool := (FUNCTION_REGISTRY.lookup n).isSome

/-- Python's `needle in hay` substring test on strings. -/
def strContains (hay needle : String) : Bool :=
  hay.toList.tails.any (fun t => needle.toList.isPrefixOf t)

/-- One property entry of the parameter schema built by
`get_openai_functions`. -/
structure ParamProperty where
  name : String
  type : String
  description : String
  deriving DecidableEq

/-- One OpenAI function definition built by `get_openai_functions`
(src/gpt_router.py lines 43-51). -/
structure OpenAIFunctionDef where
  name : String
  description : String
  properties : List ParamProperty
  required : List String
  deriving DecidableEq

/-- Type derivation of `get_openai_functions` (src/gpt_router.py lines 30-35):
`"str" in param_desc` → string, `elif "int" in param_desc` → integer,
else string. -/
def paramTypeOf (param_desc : String) : String :=
  if strContains param_desc "str" then "string"
  else if strContains param_desc "int" then "integer"
  else "string"

/-- `get_openai_functions` (src/gpt_router.py lines 19-55): converts the
registry to OpenAI function-calling format.  The source loop appends every
`param_name` to `required` unconditionally (line 41). -/
def get_openai_functions : List OpenAIFunctionDef :=
  FUNCTION_REGISTRY.map (fun e =>
    { name := e.1,
      description := e.2.description,
      properties := e.2.signature.map (fun p => ⟨p.1, paramTypeOf p.2, p.2⟩),
      required := e.2.signature.map (fun p => p.1) })

/-- Outcome of `_retry_call`: a returned value, a re-raised exception, or the
implicit `None` Python returns when `max_retries = 0` (the loop body never
runs and `last_err` stays `None`). -/
inductive RetryOutcome (α : Type) where
  | ok (a : α)
  | raised (e : String)
  | noneReturned
  deriving DecidableEq

/-- Loop of `_retry_call` (src/gpt_router.py lines 63-73).  `fn attempt` is
the outcome of the `attempt`-th call (0-based), `jitter attempt` the value
`random.uniform(0, 0.2)` sampled after that attempt fails.  Returns the
outcome, the list of slept delays in order, and the number of call attempts
made. -/
def retryLoop (fn : Nat → Except String α) (jitter : Nat → ℚ) (base_delay : ℚ) :
    Nat → Nat → Option String → RetryOutcome α × List ℚ × Nat
  | _, 0, last_err =>
    (match last_err with
     | some e => RetryOutcome.raised e
     | none => RetryOutcome.noneReturned, [], 0)
  | attempt, remaining + 1, _ =>
    match fn attempt with
    | Except.ok a => (RetryOutcome.ok a, [], 1)
    | Except.error e =>
      let delay := base_delay * 2 ^ attempt + jitter attempt
      let r := retryLoop fn jitter base_delay (attempt + 1) remaining (some e)
      (r.1, delay :: r.2.1, r.2.2 + 1)

/-- `_retry_call(fn, max_retries, base_delay)` (src/gpt_router.py
lines 61-73). -/
def _retry_call (fn : Nat → Except String α) (jitter : Nat → ℚ)
    (max_retries : Nat) (base_delay : ℚ) : RetryOutcome α × List ℚ × Nat :=
  retryLoop fn jitter base_delay 0 max_retries none

/-- The routing-decision dict produced by the router: keys `type`,
`function`, `parameters`, `thought`, `confidence`, `response`,
`suggestions`. -/
structure RoutingDecision where
  type : String
  function : Option String
  parameters : Params
  thought : String
  confidence : ℚ
  response : String
  suggestions : List String
  deriving DecidableEq

/-- `_structured_error(message, user_fallback)` (src/gpt_router.py
lines 76-89). -/
def _structured_error (message user_fallback : String) : RoutingDecision :=
  { type := "natural_response",
    function := none,
    parameters := [],
    thought := message,
    confidence := 1/10,
    response := user_fallback,
    suggestions := [
      "Try rephrasing your question",
      "Ask about a different day or location",
      "Ask about busiest times or quietest days"] }

/-- One chat message of the request (`{"role": ..., "content": ...}`). -/
structure ChatMessage where
  role : String
  content : String
  deriving DecidableEq

/-- The system instruction (src/gpt_router.py lines 116-130). -/
def SYSTEM_PROMPT : String :=
  "You are Assistentee, a friendly and intelligent rideshare data assistant for Austin, Texas. \n\nYou help users understand ride patterns, demographics, and trends through natural conversation and smart data analysis.\n\nYour approach:\n1. Understand the user's intent - Even if they use vague, slang, or indirect language\n2. Reason through the problem - Think step-by-step about what they're really asking  \n3. Choose the best function - If one exists that can help, use it with appropriate parameters\n4. Provide friendly responses - Always be conversational and helpful\n5. Offer suggestions - Guide users to better questions when appropriate\n6. Remember conversation context - If the user is answering a clarifying question, combine it with previous context\n\nBe flexible with language - understand slang, typos, and casual speech. If no function fits perfectly, provide a helpful natural response.\n\nIMPORTANT: If the user is providing a follow-up answer (like \"Friday\" after you asked \"Which day?\"), combine it with the previous question to understand the full intent."

/-- Python's `conversation_history[-6:]` (src/gpt_router.py line 136): the
last at-most-6 entries. -/
def lastSix (l : List α) : List α := l.drop (l.length - 6)

/-- The message list built by `enhanced_gpt_route_v3` (src/gpt_router.py
lines 113-142): system prompt, then the last six history turns appended as a
user/assistant message pair each (the source guards each entry with
`isinstance(entry, tuple) and len(entry) == 2`, always true here since
history entries are pairs by type), then the current question. -/
def build_messages (user_question : String)
    (conversation_history : List (String × String)) : List ChatMessage :=
  let messages : List ChatMessage := [⟨"system", SYSTEM_PROMPT⟩]
  let messages := (lastSix conversation_history).foldl
    (fun acc entry => acc ++ [⟨"user", entry.1⟩, ⟨"assistant", entry.2⟩]) messages
  messages ++ [⟨"user", user_question⟩]

/-- The chat-completion request sent by `_call_openai` (src/gpt_router.py
lines 144-152). -/
structure ChatRequest where
  model : String
  messages : List ChatMessage
  functions : List OpenAIFunctionDef
  function_call : String
  temperature : ℚ
  timeout : Nat
  deriving DecidableEq

/-- The request built for the external model by `enhanced_gpt_route_v3`
(src/gpt_router.py lines 110-152). -/
def build_request (user_question : String)
    (conversation_history : List (String × String)) : ChatRequest :=
  { model := "gpt-4",
    messages := build_messages user_question conversation_history,
    functions := get_openai_functions,
    function_call := "auto",
    temperature := 3/10,
    timeout := 30 }

/-- `message.function_call` of the model response: the selected function
name and the parse result of its JSON argument payload (`none` models
`json.loads` raising, src/gpt_router.py lines 160-163). -/
structure FunctionCallPayload where
  name : String
  argsParsed : Option Params
  deriving DecidableEq

/-- The model message `response.choices[0].message`: an optional
function-call payload and the free-text content (`none` models a null
content field). -/
structure ModelMessage where
  function_call : Option FunctionCallPayload
  content : Option String
  deriving DecidableEq

/-- The external OpenAI client: from the request and the attempt index,
either a model message or a raised exception. -/
abbrev Oracle := ChatRequest → Nat → Except String ModelMessage

/-- The module-level `_route_cache` dict (src/gpt_router.py line 58), as an
association list; insertion conses (shadowing), lookup takes the first
match. -/
abbrev RouteCache := List (String × RoutingDecision)

/-- Python's `str.lower()`: lowercase every character. -/
def pyLower (s : String) : String := ⟨s.data.map Char.toLower⟩

/-- Python's `str.strip()`: drop leading and trailing whitespace. -/
def pyStrip (s : String) : String :=
  ⟨((s.data.dropWhile Char.isWhitespace).reverse.dropWhile Char.isWhitespace).reverse⟩

/-- The cache key (src/gpt_router.py line 104):
`f"{user_question.lower().strip()}_{len(conversation_history or [])}"`. -/
def route_cache_key (user_question : String)
    (conversation_history : List (String × String)) : String :=
  pyStrip (pyLower user_question) ++ "_" ++ toString conversation_history.length

/-- The function-call decision dict (src/gpt_router.py lines 167-179). -/
def function_decision (user_question func_name : String)
    (func_args : Params) : RoutingDecision :=
  { type := "function_call",
    function := some func_name,
    parameters := func_args,
    thought := "User asked: '" ++ user_question ++ "'. I'm calling " ++
      func_name ++ " to analyze this data.",
    confidence := 9/10,
    response := "Let me analyze that for you using " ++
      (func_name.replace "_" " ") ++ "!",
    suggestions := [
      "What about other days?",
      "How about different age groups?",
      "What are the busiest times?"] }

/-- The natural-response decision dict (src/gpt_router.py lines 184-196);
`message.content or fallback` substitutes the fixed greeting when content is
null or empty. -/
def natural_decision (user_question : String)
    (content : Option String) : RoutingDecision :=
  { type := "natural_response",
    function := none,
    parameters := [],
    thought := "User asked: '" ++ user_question ++
      "'. This doesn't require specific data analysis.",
    confidence := 8/10,
    response :=
      (match content with
       | none => "I'm here to help you analyze Fetii rideshare data! What would you like to know?"
       | some s =>
         if s = "" then
           "I'm here to help you analyze Fetii rideshare data! What would you like to know?"
         else s),
    suggestions := [
      "What are the most popular dropoff locations?",
      "When do large groups ride most?",
      "What's the age distribution of riders?"] }

/-- The decision returned when the client is not initialized
(src/gpt_router.py lines 96-101). -/
def client_error_decision : RoutingDecision :=
  _structured_error "OPENAI client not initialized (missing API key)"
    "I'm temporarily unavailable. Please set the API key and try again."

/-- The decision built by the top-level `except` handler (src/gpt_router.py
lines 200-204), where `e` is the exception text. -/
def router_error_decision (e : String) : RoutingDecision :=
  _structured_error ("GPT Router v3 Error: " ++ e)
    "Sorry, I'm having trouble processing that right now. Please try again in a moment."

/-- Result of one call of `enhanced_gpt_route_v3`: the returned decision,
the route cache after the call, and the number of external model call
attempts made during the call. -/
structure RouteResult where
  decision : RoutingDecision
  cache : RouteCache
  model_attempts : Nat
  deriving DecidableEq

/-- `enhanced_gpt_route_v3(user_question, conversation_history)`
(src/gpt_router.py lines 92-206), with the module globals `client` and
`_route_cache` and the jitter source passed explicitly.  Branches, in source
order: client-missing short circuit; cache hit; `_retry_call` around the
external call; function-call path (unknown names fall through to the
natural-response path); natural-response path; top-level `except` handler.
A `noneReturned` retry outcome (impossible for `max_retries = 3`) would make
`response.choices[0].message` raise an `AttributeError`, caught by the same
top-level handler. -/
def enhanced_gpt_route_v3 (client : Option Oracle) (jitter : Nat → ℚ)
    (user_question : String) (conversation_history : List (String × String))
    (cache : RouteCache) : RouteResult :=
  match client with
  | none => ⟨client_error_decision, cache, 0⟩
  | some oracle =>
    let cache_key := route_cache_key user_question conversation_history
    match cache.lookup cache_key with
    | some cached => ⟨cached, cache, 0⟩
    | none =>
      let r := _retry_call (oracle (build_request user_question conversation_history))
        jitter 3 (6/10)
      match r.1 with
      | RetryOutcome.ok message =>
        match message.function_call with
        | some fc =>
          let func_args := fc.argsParsed.getD []
          if registryHas fc.name then
            let result := function_decision user_question fc.name func_args
            ⟨result, (cache_key, result) :: cache, r.2.2⟩
          else
            let nd := natural_decision user_question message.content
            ⟨nd, (cache_key, nd) :: cache, r.2.2⟩
        | none =>
          let nd := natural_decision user_question message.content
          ⟨nd, (cache_key, nd) :: cache, r.2.2⟩
      | RetryOutcome.raised e =>
        let er := router_error_decision e
        ⟨er, (cache_key, er) :: cache, r.2.2⟩
      | RetryOutcome.noneReturned =>
        let er := router_error_decision "'NoneType' object has no attribute 'choices'"
        ⟨er, (cache_key, er) :: cache, r.2.2⟩

lemma route_client_none (jitter : Nat → ℚ) (q : String)
    (h : List (String × String)) (cache : RouteCache) :
    enhanced_gpt_route_v3 none jitter q h cache = ⟨client_error_decision, cache, 0⟩ := rfl

lemma route_cache_hit (oracle : Oracle) (jitter : Nat → ℚ) (q : String)
    (h : List (String × String)) (cache : RouteCache) (d : RoutingDecision)
    (hhit : cache.lookup (route_cache_key q h) = some d) :
    enhanced_gpt_route_v3 (some oracle) jitter q h cache = ⟨d, cache, 0⟩ := by
  unfold enhanced_gpt_route_v3
  dsimp only
  rw [hhit]

lemma route_fc_known (oracle : Oracle) (jitter : Nat → ℚ) (q : String)
    (h : List (String × String)) (cache : RouteCache) (msg : ModelMessage)
    (fc : FunctionCallPayload)
    (hmiss : cache.lookup (route_cache_key q h) = none)
    (hok : (_retry_call (oracle (build_request q h)) jitter 3 (6/10)).1 = RetryOutcome.ok msg)
    (hfc : msg.function_call = some fc)
    (hreg : registryHas fc.name = true) :
    enhanced_gpt_route_v3 (some oracle) jitter q h cache =
      ⟨function_decision q fc.name (fc.argsParsed.getD []),
       (route_cache_key q h, function_decision q fc.name (fc.argsParsed.getD [])) :: cache,
       (_retry_call (oracle (build_request q h)) jitter 3 (6/10)).2.2⟩ := by
  unfold enhanced_gpt_route_v3
  dsimp only
  rw [hmiss, hok]
  dsimp only
  simp [hfc, hreg]

lemma route_fc_unknown (oracle : Oracle) (jitter : Nat → ℚ) (q : String)
    (h : List (String × String)) (cache : RouteCache) (msg : ModelMessage)
    (fc : FunctionCallPayload)
    (hmiss : cache.lookup (route_cache_key q h) = none)
    (hok : (_retry_call (oracle (build_request q h)) jitter 3 (6/10)).1 = RetryOutcome.ok msg)
    (hfc : msg.function_call = some fc)
    (hreg : registryHas fc.name = false) :
    enhanced_gpt_route_v3 (some oracle) jitter q h cache =
      ⟨natural_decision q msg.content,
       (route_cache_key q h, natural_decision q msg.content) :: cache,
       (_retry_call (oracle (build_request q h)) jitter 3 (6/10)).2.2⟩ := by
  unfold enhanced_gpt_route_v3
  dsimp only
  rw [hmiss, hok]
  dsimp only
  simp [hfc, hreg]

lemma route_no_fc (oracle : Oracle) (jitter : Nat → ℚ) (q : String)
    (h : List (String × String)) (cache : RouteCache) (msg : ModelMessage)
    (hmiss : cache.lookup (route_cache_key q h) = none)
    (hok : (_retry_call (oracle (build_request q h)) jitter 3 (6/10)).1 = RetryOutcome.ok msg)
    (hfc : msg.function_call = none) :
    enhanced_gpt_route_v3 (some oracle) jitter q h cache =
      ⟨natural_decision q msg.content,
       (route_cache_key q h, natural_decision q msg.content) :: cache,
       (_retry_call (oracle (build_request q h)) jitter 3 (6/10)).2.2⟩ := by
  unfold enhanced_gpt_route_v3
  dsimp only
  rw [hmiss, hok]
  dsimp only
  simp [hfc]

lemma route_raised (oracle : Oracle) (jitter : Nat → ℚ) (q : String)
    (h : List (String × String)) (cache : RouteCache) (e : String)
    (hmiss : cache.lookup (route_cache_key q h) = none)
    (hr : (_retry_call (oracle (build_request q h)) jitter 3 (6/10)).1 = RetryOutcome.raised e) :
    enhanced_gpt_route_v3 (some oracle) jitter q h cache =
      ⟨router_error_decision e,
       (route_cache_key q h, router_error_decision e) :: cache,
       (_retry_call (oracle (build_request q h)) jitter 3 (6/10)).2.2⟩ := by
  unfold enhanced_gpt_route_v3
  dsimp only
  rw [hmiss, hr]

lemma route_none_returned (oracle : Oracle) (jitter : Nat → ℚ) (q : String)
    (h : List (String × String)) (cache : RouteCache)
    (hmiss : cache.lookup (route_cache_key q h) = none)
    (hr : (_retry_call (oracle (build_request q h)) jitter 3 (6/10)).1 = RetryOutcome.noneReturned) :
    enhanced_gpt_route_v3 (some oracle) jitter q h cache =
      ⟨router_error_decision "'NoneType' object has no attribute 'choices'",
       (route_cache_key q h,
        router_error_decision "'NoneType' object has no attribute 'choices'") :: cache,
       (_retry_call (oracle (build_request q h)) jitter 3 (6/10)).2.2⟩ := by
  unfold enhanced_gpt_route_v3
  dsimp only
  rw [hmiss, hr]

/-- An oracle whose every attempt raises, used to instantiate theorems at
concrete inputs. -/
def errOracle : Oracle := fun _ _ => Except.error "boom"

/-- The constantly-zero jitter source, used to instantiate theorems at
concrete inputs. -/
def zeroJitter : Nat → ℚ := fun _ => 0

/-- A concrete pre-populated route cache holding different decisions under
the keys of `("Friday", [])` and `("Friday", [turn1])`. -/
def demo_cache : RouteCache :=
  [(route_cache_key "Friday" [], function_decision "demo" "quietest_day_overall" []),
   (route_cache_key "Friday"
      [("Where do young people go?", "Which day are you curious about?")],
    client_error_decision)]

/-- C5: with the client unset, `enhanced_gpt_route_v3` returns, for every
question, history, jitter source and cache, immediately and with no cache
interaction and zero external call attempts, the natural-response failure
decision with confidence 0.1, a rationale containing "client not
initialized", the fixed unavailability message and the three generic
suggestions. -/
theorem C5_client_unset_short_circuits (jitter : Nat → ℚ) (q : String)
    (h : List (String × String)) (cache : RouteCache) :
    enhanced_gpt_route_v3 none jitter q h cache = ⟨client_error_decision, cache, 0⟩ ∧
    client_error_decision.type = "natural_response" ∧
    client_error_decision.function = none ∧
    client_error_decision.confidence = 1/10 ∧
    (∃ pre post, client_error_decision.thought = pre ++ "client not initialized" ++ post) ∧
    client_error_decision.response =
      "I'm temporarily unavailable. Please set the API key and try again." ∧
    client_error_decision.suggestions ≠ [] :=
  ⟨rfl, rfl, rfl, rfl, ⟨"OPENAI ", " (missing API key)", by decide⟩, rfl, by decide⟩

/-- C6: the cache key is the lowercased, whitespace-trimmed question, an
underscore, and the history length; `("Friday", [])` and
`("Friday", [turn1])` get the distinct keys `friday_0` and `friday_1`, and
with a cache holding different decisions under those two keys the router
returns different decisions for the two inputs. -/
theorem C6_cache_key_shape :
    (∀ q (h : List (String × String)),
      route_cache_key q h = pyStrip (pyLower q) ++ "_" ++ toString h.length) ∧
    route_cache_key "Friday" [] = "friday_0" ∧
    route_cache_key "Friday"
      [("Where do young people go?", "Which day are you curious about?")] = "friday_1" ∧
    ("friday_0" : String) ≠ "friday_1" ∧
    (enhanced_gpt_route_v3 (some errOracle) zeroJitter "Friday" [] demo_cache).decision =
      function_decision "demo" "quietest_day_overall" [] ∧
    (enhanced_gpt_route_v3 (some errOracle) zeroJitter "Friday"
        [("Where do young people go?", "Which day are you curious about?")]
        demo_cache).decision = client_error_decision ∧
    (enhanced_gpt_route_v3 (some errOracle) zeroJitter "Friday" [] demo_cache).decision ≠
      (enhanced_gpt_route_v3 (some errOracle) zeroJitter "Friday"
        [("Where do young people go?", "Which day are you curious about?")]
        demo_cache).decision := by
  refine ⟨fun q h => rfl, by decide, by decide, by decide, rfl, rfl, ?_⟩
  intro hEq
  exact absurd (congrArg RoutingDecision.type hEq) (by decide)

/-- C10: the schema built by `get_openai_functions` lists, for every
registry function, every parameter name in `required` — including the
`day` and `top_k` parameters of `top_dropoffs_by_age_group_and_day` and the
`min_trips` parameter of `least_busy_locations_by_day`, whose signature
descriptors declare them optional. -/
theorem C10_required_lists_every_parameter :
    (get_openai_functions.all
      (fun fd => fd.required == fd.properties.map (fun p => p.name))) = true ∧
    ((get_openai_functions.find?
        (fun fd => fd.name == "top_dropoffs_by_age_group_and_day")).map
      (fun fd => fd.required)) = some ["age_group", "day", "top_k"] ∧
    ((get_openai_functions.find?
        (fun fd => fd.name == "least_busy_locations_by_day")).map
      (fun fd => fd.required)) = some ["day", "min_trips"] ∧
    (((FUNCTION_REGISTRY.lookup "top_dropoffs_by_age_group_and_day").bind
        (fun i => i.signature.lookup "day")).map
      (fun d => strContains d "optional")) = some true ∧
    (((FUNCTION_REGISTRY.lookup "top_dropoffs_by_age_group_and_day").bind
        (fun i => i.signature.lookup "top_k")).map
      (fun d => strContains d "optional")) = some true ∧
    (((FUNCTION_REGISTRY.lookup "least_busy_locations_by_day").bind
        (fun i => i.signature.lookup "min_trips")).map
      (fun d => strContains d "optional")) = some true :=
  ⟨by decide, by decide, by decide, by decide, by decide, by decide⟩

lemma route_some_client_caches (oracle : Oracle) (jitter : Nat → ℚ) (q : String)
    (h : List (String × String)) (cache : RouteCache) :
    List.lookup (route_cache_key q h)
        (enhanced_gpt_route_v3 (some oracle) jitter q h cache).cache =
      some (enhanced_gpt_route_v3 (some oracle) jitter q h cache).decision := by
  cases hl : List.lookup (route_cache_key q h) cache with
  | some d =>
    rw [route_cache_hit oracle jitter q h cache d hl]
    exact hl
  | none =>
    cases hr : (_retry_call (oracle (build_request q h)) jitter 3 (6/10)).1 with
    | ok msg =>
      cases hfc : msg.function_call with
      | some fc =>
        cases hreg : registryHas fc.name with
        | true =>
          rw [route_fc_known oracle jitter q h cache msg fc hl hr hfc hreg]
          simp [List.lookup]
        | false =>
          rw [route_fc_unknown oracle jitter q h cache msg fc hl hr hfc hreg]
          simp [List.lookup]
      | none =>
        rw [route_no_fc oracle jitter q h cache msg hl hr hfc]
        simp [List.lookup]
    | raised e =>
      rw [route_raised oracle jitter q h cache e hl hr]
      simp [List.lookup]
    | noneReturned =>
      rw [route_none_returned oracle jitter q h cache hl hr]
      simp [List.lookup]

/-- C3 counterexample: with the client unset, `enhanced_gpt_route_v3`
produces and returns a decision (the step-2 client-unavailable fallback) yet
the returned cache holds no entry under the computed key, refuting "every
decision produced in steps 2–8 is stored in the Result Cache under the
computed key before being returned". -/
theorem C3_counterexample_client_unset_decision_not_cached :
    (enhanced_gpt_route_v3 none zeroJitter "hello" [] []).decision =
      client_error_decision ∧
    (enhanced_gpt_route_v3 none zeroJitter "hello" [] []).cache = [] ∧
    List.lookup (route_cache_key "hello" [])
      (enhanced_gpt_route_v3 none zeroJitter "hello" [] []).cache = none :=
  ⟨rfl, rfl, rfl⟩

/-- C3 (amended): with an initialized client every decision — function_call,
natural_response and top-level failure alike — is stored in the cache under
the computed key before being returned, and a repeated call with the same
(question, history) returns exactly the stored decision with zero external
call attempts; the step-2 client-unavailable decision bypasses the cache but
is a fixed value, so calling twice with identical inputs still returns
identical decisions with no external call. -/
theorem C3_amended_cache_idempotence :
    (∀ (oracle : Oracle) (jitter : Nat → ℚ) (q : String)
        (h : List (String × String)) (cache : RouteCache),
      List.lookup (route_cache_key q h)
          (enhanced_gpt_route_v3 (some oracle) jitter q h cache).cache =
        some (enhanced_gpt_route_v3 (some oracle) jitter q h cache).decision) ∧
    (∀ (o o' : Oracle) (j j' : Nat → ℚ) (q : String)
        (h : List (String × String)) (cache : RouteCache),
      enhanced_gpt_route_v3 (some o') j' q h
          (enhanced_gpt_route_v3 (some o) j q h cache).cache =
        ⟨(enhanced_gpt_route_v3 (some o) j q h cache).decision,
         (enhanced_gpt_route_v3 (some o) j q h cache).cache, 0⟩) ∧
    (∀ (cl : Option Oracle) (j j' : Nat → ℚ) (q : String)
        (h : List (String × String)) (cache : RouteCache),
      (enhanced_gpt_route_v3 cl j' q h
          (enhanced_gpt_route_v3 cl j q h cache).cache).decision =
        (enhanced_gpt_route_v3 cl j q h cache).decision ∧
      (enhanced_gpt_route_v3 cl j' q h
          (enhanced_gpt_route_v3 cl j q h cache).cache).model_attempts = 0) := by
  refine ⟨route_some_client_caches, ?_, ?_⟩
  · intro o o' j j' q h cache
    exact route_cache_hit o' j' q h _ _ (route_some_client_caches o j q h cache)
  · intro cl j j' q h cache
    cases cl with
    | none => exact ⟨rfl, rfl⟩
    | some o =>
      have h2 := route_cache_hit o j' q h _ _ (route_some_client_caches o j q h cache)
      rw [h2]
      exact ⟨rfl, rfl⟩

/-- C8: when the model selects a function whose argument payload is not
parseable as JSON, the router still produces a function_call decision
(provided the name is in the registry) whose parameters are the empty
mapping, rather than aborting. -/
theorem C8_unparseable_args_degrade_to_empty (oracle : Oracle)
    (jitter : Nat → ℚ) (q : String) (h : List (String × String))
    (cache : RouteCache) (msg : ModelMessage) (fc : FunctionCallPayload)
    (hmiss : cache.lookup (route_cache_key q h) = none)
    (hok : (_retry_call (oracle (build_request q h)) jitter 3 (6/10)).1 =
      RetryOutcome.ok msg)
    (hfc : msg.function_call = some fc)
    (hargs : fc.argsParsed = none)
    (hreg : registryHas fc.name = true) :
    (enhanced_gpt_route_v3 (some oracle) jitter q h cache).decision =
      function_decision q fc.name [] ∧
    (enhanced_gpt_route_v3 (some oracle) jitter q h cache).decision.type =
      "function_call" ∧
    (enhanced_gpt_route_v3 (some oracle) jitter q h cache).decision.parameters = [] := by
  rw [route_fc_known oracle jitter q h cache msg fc hmiss hok hfc hreg]
  simp [hargs]
  exact ⟨rfl, rfl⟩

/-- An oracle whose model message selects `quietest_day_overall` with an
unparseable argument payload. -/
def fcBadArgsOracle : Oracle := fun _ _ =>
  Except.ok ⟨some ⟨"quietest_day_overall", none⟩, some "ok"⟩

/-- C8 witness: the C8 theorem applied at a concrete oracle that selects a
registry function with unparseable arguments. -/
theorem C8_witness :
    (enhanced_gpt_route_v3 (some fcBadArgsOracle) zeroJitter "quietest day?" [] []).decision =
      function_decision "quietest day?" "quietest_day_overall" [] :=
  (C8_unparseable_args_degrade_to_empty fcBadArgsOracle zeroJitter "quietest day?" [] []
    ⟨some ⟨"quietest_day_overall", none⟩, some "ok"⟩ ⟨"quietest_day_overall", none⟩
    rfl rfl rfl rfl rfl).1

/-- C1: the router never yields an absent result — with the client unset it
returns the fixed configuration-failure decision, on a fresh (cache-miss)
computation the decision kind is always function_call or natural_response
with non-empty suggestions, and an exception propagating out of the external
call is converted into the natural-response failure decision with confidence
0.1, a rationale carrying the exception detail, the generic apology and the
generic suggestions. -/
theorem C1_failure_converted_to_wellformed_decision (client : Option Oracle)
    (jitter : Nat → ℚ) (q : String) (h : List (String × String))
    (cache : RouteCache) :
    (client = none →
      (enhanced_gpt_route_v3 client jitter q h cache).decision = client_error_decision) ∧
    (∀ oracle : Oracle, client = some oracle →
      cache.lookup (route_cache_key q h) = none →
      ((enhanced_gpt_route_v3 client jitter q h cache).decision.type = "function_call" ∨
       (enhanced_gpt_route_v3 client jitter q h cache).decision.type = "natural_response") ∧
      (enhanced_gpt_route_v3 client jitter q h cache).decision.suggestions ≠ []) ∧
    (∀ (oracle : Oracle) (e : String), client = some oracle →
      cache.lookup (route_cache_key q h) = none →
      (_retry_call (oracle (build_request q h)) jitter 3 (6/10)).1 =
        RetryOutcome.raised e →
      (enhanced_gpt_route_v3 client jitter q h cache).decision =
        router_error_decision e ∧
      (enhanced_gpt_route_v3 client jitter q h cache).decision.type =
        "natural_response" ∧
      (enhanced_gpt_route_v3 client jitter q h cache).decision.confidence = 1/10 ∧
      (enhanced_gpt_route_v3 client jitter q h cache).decision.thought =
        "GPT Router v3 Error: " ++ e ∧
      (enhanced_gpt_route_v3 client jitter q h cache).decision.response =
        "Sorry, I'm having trouble processing that right now. Please try again in a moment." ∧
      (enhanced_gpt_route_v3 client jitter q h cache).decision.suggestions ≠ []) := by
  refine ⟨?_, ?_, ?_⟩
  · rintro rfl
    rfl
  · rintro oracle rfl hmiss
    cases hr : (_retry_call (oracle (build_request q h)) jitter 3 (6/10)).1 with
    | ok msg =>
      cases hfc : msg.function_call with
      | some fc =>
        cases hreg : registryHas fc.name with
        | true =>
          rw [route_fc_known oracle jitter q h cache msg fc hmiss hr hfc hreg]
          exact ⟨Or.inl rfl, by simp [function_decision]⟩
        | false =>
          rw [route_fc_unknown oracle jitter q h cache msg fc hmiss hr hfc hreg]
          exact ⟨Or.inr rfl, by simp [natural_decision]⟩
      | none =>
        rw [route_no_fc oracle jitter q h cache msg hmiss hr hfc]
        exact ⟨Or.inr rfl, by simp [natural_decision]⟩
    | raised e =>
      rw [route_raised oracle jitter q h cache e hmiss hr]
      exact ⟨Or.inr rfl, by simp [router_error_decision, _structured_error]⟩
    | noneReturned =>
      rw [route_none_returned oracle jitter q h cache hmiss hr]
      exact ⟨Or.inr rfl, by simp [router_error_decision, _structured_error]⟩
  · rintro oracle e rfl hmiss hr
    rw [route_raised oracle jitter q h cache e hmiss hr]
    exact ⟨rfl, rfl, rfl, rfl, rfl, by simp [router_error_decision, _structured_error]⟩

/-- C1 witness: the C1 theorem applied at a concrete always-raising oracle
on an empty cache. -/
theorem C1_witness :
    (enhanced_gpt_route_v3 (some errOracle) zeroJitter "hi" [] []).decision =
      router_error_decision "boom" :=
  ((C1_failure_converted_to_wellformed_decision (some errOracle) zeroJitter
    "hi" [] []).2.2 errOracle "boom" rfl rfl rfl).1

/-- C2: on a fresh computation, if the model nominates a function name
absent from `FUNCTION_REGISTRY` the decision is a natural_response with no
function and empty parameters; and a function_call decision arises only when
the model nominated a name that is a registry key. -/
theorem C2_unknown_function_guard (oracle : Oracle) (jitter : Nat → ℚ)
    (q : String) (h : List (String × String)) (cache : RouteCache) :
    (∀ (msg : ModelMessage) (fc : FunctionCallPayload),
      cache.lookup (route_cache_key q h) = none →
      (_retry_call (oracle (build_request q h)) jitter 3 (6/10)).1 =
        RetryOutcome.ok msg →
      msg.function_call = some fc →
      registryHas fc.name = false →
      (enhanced_gpt_route_v3 (some oracle) jitter q h cache).decision.type =
        "natural_response" ∧
      (enhanced_gpt_route_v3 (some oracle) jitter q h cache).decision.function = none ∧
      (enhanced_gpt_route_v3 (some oracle) jitter q h cache).decision.parameters = []) ∧
    (cache.lookup (route_cache_key q h) = none →
      (enhanced_gpt_route_v3 (some oracle) jitter q h cache).decision.type =
        "function_call" →
      ∃ (msg : ModelMessage) (fc : FunctionCallPayload),
        (_retry_call (oracle (build_request q h)) jitter 3 (6/10)).1 =
          RetryOutcome.ok msg ∧
        msg.function_call = some fc ∧
        registryHas fc.name = true ∧
        (enhanced_gpt_route_v3 (some oracle) jitter q h cache).decision.function =
          some fc.name) := by
  constructor
  · intro msg fc hmiss hok hfc hreg
    rw [route_fc_unknown oracle jitter q h cache msg fc hmiss hok hfc hreg]
    exact ⟨rfl, rfl, rfl⟩
  · intro hmiss htype
    cases hr : (_retry_call (oracle (build_request q h)) jitter 3 (6/10)).1 with
    | ok msg =>
      cases hfc : msg.function_call with
      | some fc =>
        cases hreg : registryHas fc.name with
        | true =>
          refine ⟨msg, fc, rfl, hfc, hreg, ?_⟩
          rw [route_fc_known oracle jitter q h cache msg fc hmiss hr hfc hreg]
          rfl
        | false =>
          rw [route_fc_unknown oracle jitter q h cache msg fc hmiss hr hfc hreg] at htype
          exact absurd htype (by simp [natural_decision])
      | none =>
        rw [route_no_fc oracle jitter q h cache msg hmiss hr hfc] at htype
        exact absurd htype (by simp [natural_decision])
    | raised e =>
      rw [route_raised oracle jitter q h cache e hmiss hr] at htype
      exact absurd htype (by simp [router_error_decision, _structured_error])
    | noneReturned =>
      rw [route_none_returned oracle jitter q h cache hmiss hr] at htype
      exact absurd htype (by simp [router_error_decision, _structured_error])

/-- An oracle whose model message nominates a function name that is not a
registry key. -/
def unknownFcOracle : Oracle := fun _ _ =>
  Except.ok ⟨some ⟨"made_up_function", none⟩, some "hello"⟩

/-- C2 witness: the C2 theorem applied at a concrete oracle nominating an
unknown function name. -/
theorem C2_witness :
    (enhanced_gpt_route_v3 (some unknownFcOracle) zeroJitter "hm" [] []).decision.type =
      "natural_response" :=
  ((C2_unknown_function_guard unknownFcOracle zeroJitter "hm" [] []).1
    ⟨some ⟨"made_up_function", none⟩, some "hello"⟩ ⟨"made_up_function", none⟩
    rfl rfl rfl rfl).1

/-- The three-way confidence contract: function_call decisions carry 0.9,
natural_response decisions carry 0.8 (conversational) or 0.1 (failure). -/
def confOK (d : RoutingDecision) : Prop :=
  (d.type = "function_call" ∧ d.confidence = 9/10) ∨
  (d.type = "natural_response" ∧ (d.confidence = 8/10 ∨ d.confidence = 1/10))

lemma lookup_cons_cases {k key : String} {nd d : RoutingDecision}
    {cache : RouteCache}
    (hkd : List.lookup k ((key, nd) :: cache) = some d) :
    d = nd ∨ List.lookup k cache = some d := by
  simp only [List.lookup] at hkd
  cases hk : k == key with
  | true =>
    rw [hk] at hkd
    exact Or.inl (Option.some.inj hkd).symm
  | false =>
    rw [hk] at hkd
    exact Or.inr hkd

/-- C7: assuming every cached decision already satisfies the three-way
confidence contract, the returned decision does and the contract is
preserved in the cache; fresh function_call decisions carry 0.9, fresh
conversational natural responses carry 0.8 (with the fixed greeting fallback
when the model's reply is null or empty), and failure decisions — raised
exception or unset client — carry 0.1. -/
theorem C7_three_fixed_confidence_constants (cl : Option Oracle)
    (jitter : Nat → ℚ) (q : String) (h : List (String × String))
    (cache : RouteCache) :
    ((∀ k d, List.lookup k cache = some d → confOK d) →
      confOK (enhanced_gpt_route_v3 cl jitter q h cache).decision ∧
      (∀ k d, List.lookup k (enhanced_gpt_route_v3 cl jitter q h cache).cache =
        some d → confOK d)) ∧
    (∀ (oracle : Oracle) (msg : ModelMessage) (fc : FunctionCallPayload),
      cl = some oracle →
      cache.lookup (route_cache_key q h) = none →
      (_retry_call (oracle (build_request q h)) jitter 3 (6/10)).1 =
        RetryOutcome.ok msg →
      msg.function_call = some fc →
      registryHas fc.name = true →
      (enhanced_gpt_route_v3 cl jitter q h cache).decision.confidence = 9/10 ∧
      (enhanced_gpt_route_v3 cl jitter q h cache).decision.type = "function_call") ∧
    (∀ (oracle : Oracle) (msg : ModelMessage),
      cl = some oracle →
      cache.lookup (route_cache_key q h) = none →
      (_retry_call (oracle (build_request q h)) jitter 3 (6/10)).1 =
        RetryOutcome.ok msg →
      (msg.function_call = none ∨
        (∃ fc, msg.function_call = some fc ∧ registryHas fc.name = false)) →
      (enhanced_gpt_route_v3 cl jitter q h cache).decision.confidence = 8/10 ∧
      (enhanced_gpt_route_v3 cl jitter q h cache).decision.type = "natural_response" ∧
      ((msg.content = none ∨ msg.content = some "") →
        (enhanced_gpt_route_v3 cl jitter q h cache).decision.response =
          "I'm here to help you analyze Fetii rideshare data! What would you like to know?")) ∧
    (∀ (oracle : Oracle) (e : String),
      cl = some oracle →
      cache.lookup (route_cache_key q h) = none →
      (_retry_call (oracle (build_request q h)) jitter 3 (6/10)).1 =
        RetryOutcome.raised e →
      (enhanced_gpt_route_v3 cl jitter q h cache).decision.confidence = 1/10) ∧
    (cl = none →
      (enhanced_gpt_route_v3 cl jitter q h cache).decision.confidence = 1/10) := by
  refine ⟨?_, ?_, ?_, ?_, ?_⟩
  · intro hcache
    cases cl with
    | none => exact ⟨Or.inr ⟨rfl, Or.inr rfl⟩, hcache⟩
    | some oracle =>
      cases hl : List.lookup (route_cache_key q h) cache with
      | some d =>
        rw [route_cache_hit oracle jitter q h cache d hl]
        exact ⟨hcache _ _ hl, hcache⟩
      | none =>
        cases hr : (_retry_call (oracle (build_request q h)) jitter 3 (6/10)).1 with
        | ok msg =>
          cases hfc : msg.function_call with
          | some fc =>
            cases hreg : registryHas fc.name with
            | true =>
              rw [route_fc_known oracle jitter q h cache msg fc hl hr hfc hreg]
              refine ⟨Or.inl ⟨rfl, rfl⟩, ?_⟩
              intro k d hkd
              rcases lookup_cons_cases hkd with rfl | hmem
              · exact Or.inl ⟨rfl, rfl⟩
              · exact hcache _ _ hmem
            | false =>
              rw [route_fc_unknown oracle jitter q h cache msg fc hl hr hfc hreg]
              refine ⟨Or.inr ⟨rfl, Or.inl rfl⟩, ?_⟩
              intro k d hkd
              rcases lookup_cons_cases hkd with rfl | hmem
              · exact Or.inr ⟨rfl, Or.inl rfl⟩
              · exact hcache _ _ hmem
          | none =>
            rw [route_no_fc oracle jitter q h cache msg hl hr hfc]
            refine ⟨Or.inr ⟨rfl, Or.inl rfl⟩, ?_⟩
            intro k d hkd
            rcases lookup_cons_cases hkd with rfl | hmem
            · exact Or.inr ⟨rfl, Or.inl rfl⟩
            · exact hcache _ _ hmem
        | raised e =>
          rw [route_raised oracle jitter q h cache e hl hr]
          refine ⟨Or.inr ⟨rfl, Or.inr rfl⟩, ?_⟩
          intro k d hkd
          rcases lookup_cons_cases hkd with rfl | hmem
          · exact Or.inr ⟨rfl, Or.inr rfl⟩
          · exact hcache _ _ hmem
        | noneReturned =>
          rw [route_none_returned oracle jitter q h cache hl hr]
          refine ⟨Or.inr ⟨rfl, Or.inr rfl⟩, ?_⟩
          intro k d hkd
          rcases lookup_cons_cases hkd with rfl | hmem
          · exact Or.inr ⟨rfl, Or.inr rfl⟩
          · exact hcache _ _ hmem
  · rintro oracle msg fc rfl hmiss hok hfc hreg
    rw [route_fc_known oracle jitter q h cache msg fc hmiss hok hfc hreg]
    exact ⟨rfl, rfl⟩
  · rintro oracle msg rfl hmiss hok hnat
    have hgoal :
        (enhanced_gpt_route_v3 (some oracle) jitter q h cache).decision =
          natural_decision q msg.content := by
      rcases hnat with hfc | ⟨fc, hfc, hreg⟩
      · rw [route_no_fc oracle jitter q h cache msg hmiss hok hfc]
      · rw [route_fc_unknown oracle jitter q h cache msg fc hmiss hok hfc hreg]
    rw [hgoal]
    refine ⟨rfl, rfl, ?_⟩
    rintro (hc | hc) <;> simp [natural_decision, hc]
  · rintro oracle e rfl hmiss hr
    rw [route_raised oracle jitter q h cache e hmiss hr]
    rfl
  · rintro rfl
    rfl

/-- C7 witness: the C7 theorem applied at an unset client and the empty
cache (the failure decision carries confidence 0.1 and the contract holds). -/
theorem C7_witness :
    confOK (enhanced_gpt_route_v3 none zeroJitter "x" [] []).decision :=
  ((C7_three_fixed_confidence_constants none zeroJitter "x" [] []).1
    (fun k d hkd => absurd hkd (by simp))).1

/-- The spec-side description of how history turns expand: each (user,
assistant) pair becomes a user message followed by the paired assistant
message, in original order. -/
def expand_turns (l : List (String × String)) : List ChatMessage :=
  (l.map (fun e => [ChatMessage.mk "user" e.1, ChatMessage.mk "assistant" e.2])).flatten

lemma foldl_expand_turns (l : List (String × String)) (init : List ChatMessage) :
    l.foldl (fun acc e => acc ++ [⟨"user", e.1⟩, ⟨"assistant", e.2⟩]) init =
      init ++ expand_turns l := by
  induction l generalizing init with
  | nil => simp [expand_turns]
  | cons x xs ih =>
    simp only [List.foldl_cons, ih, expand_turns, List.map_cons, List.flatten_cons]
    simp

/-- C9: the message sequence sent to the external model is the fixed system
instruction, then the expansion of the last at-most-6 turns of the history —
each pair expanding to a user message followed by the paired assistant
message, in original order — and the current question as the final user
message; the forwarded window is a suffix of the history of length
`min 6 (length history)`. -/
theorem C9_message_sequence_shape (q : String) (h : List (String × String)) :
    (build_request q h).messages =
      ChatMessage.mk "system" SYSTEM_PROMPT ::
        (expand_turns (lastSix h) ++ [ChatMessage.mk "user" q]) ∧
    List.IsSuffix (lastSix h) h ∧
    (lastSix h).length = min 6 h.length := by
  refine ⟨?_, ?_, ?_⟩
  · show build_messages q h = _
    unfold build_messages
    dsimp only
    rw [foldl_expand_turns]
    simp
  · exact List.drop_suffix _ _
  · simp [lastSix]
    omega

/-- C4: `_retry_call` with `max_retries = 3` and `base_delay = 0.6` makes at
most 3 attempts; the delay slept after the n-th failed attempt (0-based
index i = n-1) is `0.6 * 2^i` plus the sampled jitter, which the range
hypothesis keeps within `[0, 0.2]`; if attempts 1 and 2 raise and attempt 3
succeeds, the call returns attempt 3's value after exactly two backoff
sleeps whose deterministic parts sum to `0.6 * (1 + 2)`, and the router then
yields a successful (non-failure) decision after exactly 3 attempts; after
all 3 attempts fail the last exception is re-raised. -/
theorem C4_retry_with_exponential_backoff {α : Type}
    (fn : Nat → Except String α) (jitter : Nat → ℚ)
    (hj : ∀ n, 0 ≤ jitter n ∧ jitter n ≤ 1/5) :
    (_retry_call fn jitter 3 (6/10)).2.2 ≤ 3 ∧
    ((_retry_call fn jitter 3 (6/10)).2.1 =
      (List.range (_retry_call fn jitter 3 (6/10)).2.1.length).map
        (fun i => 6/10 * 2^i + jitter i)) ∧
    (∀ i : Nat, (6:ℚ)/10 * 2^i ≤ 6/10 * 2^i + jitter i ∧
      6/10 * 2^i + jitter i ≤ 6/10 * 2^i + 1/5) ∧
    (∀ (e0 e1 : String) (v : α),
      fn 0 = Except.error e0 → fn 1 = Except.error e1 → fn 2 = Except.ok v →
      (_retry_call fn jitter 3 (6/10)).1 = RetryOutcome.ok v ∧
      (_retry_call fn jitter 3 (6/10)).2.2 = 3 ∧
      (_retry_call fn jitter 3 (6/10)).2.1 =
        [6/10 * 2^0 + jitter 0, 6/10 * 2^1 + jitter 1] ∧
      ((6:ℚ)/10 * 2^0 + 6/10 * 2^1) = 6/10 * (1 + 2)) ∧
    (∀ e0 e1 e2 : String,
      fn 0 = Except.error e0 → fn 1 = Except.error e1 → fn 2 = Except.error e2 →
      (_retry_call fn jitter 3 (6/10)).1 = RetryOutcome.raised e2 ∧
      (_retry_call fn jitter 3 (6/10)).2.2 = 3) ∧
    (∀ (oracle : Oracle) (q : String) (h : List (String × String))
        (cache : RouteCache) (msg : ModelMessage) (e0 e1 : String),
      cache.lookup (route_cache_key q h) = none →
      oracle (build_request q h) 0 = Except.error e0 →
      oracle (build_request q h) 1 = Except.error e1 →
      oracle (build_request q h) 2 = Except.ok msg →
      msg.function_call = none →
      (enhanced_gpt_route_v3 (some oracle) jitter q h cache).decision =
        natural_decision q msg.content ∧
      (enhanced_gpt_route_v3 (some oracle) jitter q h cache).model_attempts = 3) := by
  refine ⟨?_, ?_, ?_, ?_, ?_, ?_⟩
  · cases h0 : fn 0 with
    | ok v => simp [_retry_call, retryLoop, h0]
    | error e0 =>
      cases h1 : fn 1 with
      | ok v => simp [_retry_call, retryLoop, h0, h1]
      | error e1 =>
        cases h2 : fn 2 with
        | ok v => simp [_retry_call, retryLoop, h0, h1, h2]
        | error e2 => simp [_retry_call, retryLoop, h0, h1, h2]
  · cases h0 : fn 0 with
    | ok v => simp [_retry_call, retryLoop, h0]
    | error e0 =>
      cases h1 : fn 1 with
      | ok v => simp [_retry_call, retryLoop, h0, h1, List.range_succ]
      | error e1 =>
        cases h2 : fn 2 with
        | ok v => simp [_retry_call, retryLoop, h0, h1, h2, List.range_succ]
        | error e2 => simp [_retry_call, retryLoop, h0, h1, h2, List.range_succ]
  · intro i
    have := hj i
    constructor <;> linarith
  · intro e0 e1 v h0 h1 h2
    refine ⟨?_, ?_, ?_, by norm_num⟩ <;> simp [_retry_call, retryLoop, h0, h1, h2]
  · intro e0 e1 e2 h0 h1 h2
    constructor <;> simp [_retry_call, retryLoop, h0, h1, h2]
  · intro oracle q h cache msg e0 e1 hmiss h0 h1 h2 hfc
    have hok : (_retry_call (oracle (build_request q h)) jitter 3 (6/10)).1 =
        RetryOutcome.ok msg := by
      simp [_retry_call, retryLoop, h0, h1, h2]
    have hatt : (_retry_call (oracle (build_request q h)) jitter 3 (6/10)).2.2 = 3 := by
      simp [_retry_call, retryLoop, h0, h1, h2]
    rw [route_no_fc oracle jitter q h cache msg hmiss hok hfc]
    exact ⟨rfl, hatt⟩

/-- A call target that raises on attempts 1 and 2 and succeeds on
attempt 3. -/
def w4fn : Nat → Except String Nat :=
  fun n => if n = 2 then Except.ok 42 else Except.error "boom"

/-- C4 witness: the C4 theorem applied at a concrete call target failing
twice then succeeding, with zero jitter. -/
theorem C4_witness :
    (_retry_call w4fn zeroJitter 3 (6/10)).1 = RetryOutcome.ok 42 :=
  ((C4_retry_with_exponential_backoff w4fn zeroJitter
      (fun n => ⟨le_refl 0, by norm_num [zeroJitter]⟩)).2.2.2.1 "boom" "boom" 42
    rfl rfl rfl).1
